import Mathlib

/-!
# Verification of the `cosmic-ext-applet-connect` session reconciliation core

Shallow embedding of `src/app.rs` (the `CosmicConnect::update` message reducer)
and `src/config.rs` (`ConnectConfig`).

Modelling decisions, each tied to the source:

* `HashMap<String, DeviceState>` (field `connections` of `CosmicConnect`) is
  modelled as an association list with in-place-replacing insert, first-match
  lookup and first-match removal; a well-formed hash map has no duplicate keys,
  so theorems that depend on key uniqueness take a `Nodup` hypothesis.
* `iced::window::Id::unique()` is a process-global fresh-id generator; it is
  modelled by a counter `next_popup_id` threaded through the state.
* `ConnectConfig::config_handler()` may return `None` (the config store is
  unavailable); `update` takes a boolean `handler_ok` for this environment
  fact, and the `.unwrap()` panic in the `PairDevice` / `UnPairDevice` arms is
  modelled by `update` returning `none`.
* `config.set_paired(&handler, v)` is the setter derived by
  `CosmicConfigEntry` for the `paired` field: at its interface it replaces the
  whole `paired` value with `v` and persists the config (a `saveConfig`
  effect).  `app.rs` calls it with `Some(device)` / `None`, so the stored
  `paired` value is modelled as `Option DeviceId` (the at-most-one identity the
  call sites can ever store).
* Side effects (`state.send(..)`, `sender.send(..)`, `destroy_popup`,
  `get_popup`, clipboard writes, re-dispatched `Task::done` messages) are
  collected in an ordered `Effect` list; their failures are logged by the code
  and do not touch the state, so effects are fire-and-forget data here.
-/

namespace Applet

/-- `kdeconnect::device::DeviceId`: stable identifier plus display name.
Only `id` is used as a lookup key by `app.rs`. -/
structure DeviceId where
  id : String
  name : String
deriving DecidableEq, Repr

/-- One network entry of `ConnectivityInfo` (`network_type`, `signal_strength`),
as read by `view_window`. -/
structure NetworkInfo where
  network_type : String
  signal_strength : Int
deriving DecidableEq, Repr

/-- `kdeconnect::device` connectivity report: signal strengths keyed by network
handle. -/
structure ConnectivityInfo where
  signal_strengths : List (String × NetworkInfo)
deriving DecidableEq, Repr

/-- Battery report: charge percent and charging flag. -/
structure BatteryInfo where
  charge : Int
  is_charging : Bool
deriving DecidableEq, Repr

/-- `kdeconnect::device::PairingState`. -/
inductive PairingState
  | Unpaired
  | Requested
  | Paired
deriving DecidableEq, Repr

/-- `kdeconnect::device::DeviceState`: the per-device snapshot carried by
device-update messages and stored in `connections`.  The device's action
channel is not data; `state.send(action)` is modelled as a `deviceSend`
effect carrying `device_id`. -/
structure DeviceState where
  device_id : DeviceId
  connectivity : Option ConnectivityInfo
  battery : Option BatteryInfo
  pairing_state : PairingState
deriving DecidableEq, Repr

/-- `kdeconnect::device::Linked`, the element type of
`ConnectConfig::last_connections`: identity, name and link-kind of a recorded
connection. -/
structure Linked where
  id : String
  name : String
  link_kind : String
deriving DecidableEq, Repr

/-- `ConnectConfig` from `src/config.rs`.  `last_connections` is the persisted
set of seen devices.  `config.rs` declares `paired: Vec<ConnectedId>`, but the
only writes (`set_paired(&handler, Some(device))` / `set_paired(&handler,
None)` in `app.rs`) replace the field wholesale with an `Option` of one
`DeviceId`, so the value the reducer can ever hold is modelled as
`Option DeviceId`. -/
structure ConnectConfig where
  last_connections : List Linked
  paired : Option DeviceId
deriving DecidableEq, Repr

/-- The `set_paired` setter derived by `CosmicConfigEntry`: replace the
`paired` field with the given value (the accompanying persist is the
`saveConfig` effect at the call sites). -/
def ConnectConfig.set_paired (c : ConnectConfig) (v : Option DeviceId) : ConnectConfig :=
  { c with paired := v }

/-- `kdeconnect::device::DeviceAction`, the per-device actions `app.rs`
sends. -/
inductive DeviceAction
  | Disconnect
  | Pair
  | UnPair
  | Ping (msg : String)
deriving DecidableEq, Repr

/-- `kdeconnect::ClientAction`, sent on the client action channel. -/
inductive ClientAction
  | Broadcast
deriving DecidableEq, Repr

/-- `kdeconnect::device::DeviceResponse` as matched in the `DeviceUpdate`
arm. -/
inductive DeviceResponse
  | Refresh (state : DeviceState)
  | SyncClipboard (content : String)
deriving DecidableEq, Repr

/-- The `Message` enum of `app.rs`.  `KdeConnect(Connected((client, sender)))`
carries two opaque live handles; only their arrival matters to the state, so
the payload is dropped.  Window ids are `Nat`. -/
inductive Message
  | TogglePopup
  | PopupClosed (id : Nat)
  | UpdateConfig (config : ConnectConfig)
  | KdeConnectConnected
  | DeviceUpdate (response : DeviceResponse)
  | DisconnectDevice (device : DeviceState)
  | Broadcast
  | UpdateState (state : DeviceState)
  | PairDevice (device : DeviceId)
  | UnPairDevice (device : DeviceId)
  | SendPing (id : DeviceId) (msg : String)
deriving DecidableEq, Repr

/-- The side effects a reduction step issues, in program order. -/
inductive Effect
  | destroyPopup (id : Nat)
  | openPopup (id : Nat)
  | dispatch (msg : Message)
  | clipboardWrite (content : String)
  | deviceSend (device : DeviceId) (action : DeviceAction)
  | clientSend (action : ClientAction)
  | saveConfig
deriving DecidableEq, Repr

/-- Model of `HashMap<String, DeviceState>`. -/
abbrev Connections := List (String × DeviceState)

/-- `HashMap::insert`: replace the entry with this key in place, or append. -/
def insertConn (k : String) (v : DeviceState) : Connections → Connections
  | [] => [(k, v)]
  | (k', v') :: rest =>
    if k' = k then (k, v) :: rest else (k', v') :: insertConn k v rest

/-- `HashMap::remove`: drop the entry with this key. -/
def removeConn (k : String) : Connections → Connections
  | [] => []
  | (k', v') :: rest =>
    if k' = k then rest else (k', v') :: removeConn k rest

/-- `HashMap::get`. -/
def getConn (k : String) : Connections → Option DeviceState
  | [] => none
  | (k', v') :: rest => if k' = k then some v' else getConn k rest

/-- The keys of the map. -/
def connKeys (l : Connections) : List String := l.map Prod.fst

/-- How many entries carry key `k` (1 for every present key of a well-formed
hash map). -/
def countKey (k : String) (l : Connections) : Nat :=
  l.countP (fun p => p.1 = k)

/-- The `CosmicConnect` application state (`src/app.rs`), minus the opaque
`core`.  The two live handles `kdeconnect : Option<KdeConnect>` and
`kdeconnect_client_action_sender : Option<UnboundedSender<ClientAction>>` are
opaque; only their presence matters, so they are `Bool` (`true` = `Some`).
`next_popup_id` models the `Id::unique()` counter. -/
structure CosmicConnect where
  popup : Option Nat
  next_popup_id : Nat
  config : ConnectConfig
  kdeconnect : Bool
  kdeconnect_client_action_sender : Bool
  connections : Connections
deriving DecidableEq, Repr

/-- `CosmicConnect::init`: empty popup, no backend, no sender, no sessions,
config as loaded by `ConnectConfig::config()`. -/
def init (config : ConnectConfig) : CosmicConnect :=
  { popup := none
    next_popup_id := 0
    config := config
    kdeconnect := false
    kdeconnect_client_action_sender := false
    connections := [] }

/-- `CosmicConnect::update`, arm for arm.  `handler_ok` is whether
`ConnectConfig::config_handler()` returns `Some`; `none` models the panic of
the `.unwrap()` on it in the `PairDevice` / `UnPairDevice` arms.  Every other
arm always completes. -/
def update (handler_ok : Bool) (s : CosmicConnect) :
    Message → Option (CosmicConnect × List Effect)
  | .TogglePopup =>
    match s.popup with
    | some p => some ({ s with popup := none }, [.destroyPopup p])
    | none =>
      some ({ s with popup := some s.next_popup_id,
                     next_popup_id := s.next_popup_id + 1 },
            [.openPopup s.next_popup_id])
  | .PopupClosed id =>
    if s.popup = some id then some ({ s with popup := none }, []) else some (s, [])
  | .UpdateConfig config => some ({ s with config := config }, [])
  | .KdeConnectConnected =>
    some ({ s with kdeconnect := true, kdeconnect_client_action_sender := true }, [])
  | .DeviceUpdate (.Refresh st) => some (s, [.dispatch (.UpdateState st)])
  | .DeviceUpdate (.SyncClipboard content) => some (s, [.clipboardWrite content])
  | .DisconnectDevice device =>
    some ({ s with connections := removeConn device.device_id.id s.connections,
                   kdeconnect := false },
          [.deviceSend device.device_id .Disconnect])
  | .Broadcast =>
    some (s, if s.kdeconnect_client_action_sender then [.clientSend .Broadcast] else [])
  | .UpdateState st =>
    some ({ s with connections := insertConn st.device_id.id st s.connections }, [])
  | .PairDevice device =>
    let sendEffects : List Effect :=
      match getConn device.id s.connections with
      | some st => [.deviceSend st.device_id .Pair]
      | none => []
    if handler_ok then
      some ({ s with config := s.config.set_paired (some device) },
            sendEffects ++ [.saveConfig])
    else none
  | .UnPairDevice device =>
    let sendEffects : List Effect :=
      match getConn device.id s.connections with
      | some st => [.deviceSend st.device_id .UnPair]
      | none => []
    if handler_ok then
      some ({ s with config := s.config.set_paired none,
                     connections := removeConn device.id s.connections },
            sendEffects ++ [.saveConfig])
    else none
  | .SendPing id msg =>
    some (s, match getConn id.id s.connections with
             | some st => [.deviceSend st.device_id (.Ping msg)]
             | none => [])

/-- Apply a whole message sequence, in arrival order, threading the state and
discarding effects; `none` as soon as one step panics. -/
def run (handler_ok : Bool) (s : CosmicConnect) : List Message → Option CosmicConnect
  | [] => some s
  | m :: ms =>
    match update handler_ok s m with
    | some (s', _) => run handler_ok s' ms
    | none => none

/-- The device identities carried by the `UpdateState` (device-update) messages
of a sequence. -/
def updateStateIds : List Message → List String
  | [] => []
  | .UpdateState st :: ms => st.device_id.id :: updateStateIds ms
  | _ :: ms => updateStateIds ms

/-- The identity currently recorded in `config.paired`, if any. -/
def pairedId (s : CosmicConnect) : Option String :=
  s.config.paired.map (fun d => d.id)

/-- Side condition under which the spec's pairing invariant can hold: a pair
request names a currently known session, and the config is not replaced
wholesale from outside. -/
def okMsg (s : CosmicConnect) : Message → Bool
  | .PairDevice device => (getConn device.id s.connections).isSome
  | .UpdateConfig _ => false
  | _ => true

/-- `okMsg` holds at every step of the sequence. -/
def goodRun (s : CosmicConnect) : List Message → Bool
  | [] => true
  | m :: ms =>
    okMsg s m &&
      (match update true s m with
       | some (s', _) => goodRun s' ms
       | none => false)

/-! ## Lemmas about the map model -/

theorem getConn_insertConn_self (k : String) (v : DeviceState) (l : Connections) :
    getConn k (insertConn k v l) = some v := by
  induction l with
  | nil => simp [insertConn, getConn]
  | cons hd tl ih =>
    obtain ⟨k', v'⟩ := hd
    by_cases h : k' = k
    · simp [insertConn, h, getConn]
    · simp [insertConn, h, getConn, ih]

theorem getConn_removeConn_ne (k k' : String) (h : k ≠ k') (l : Connections) :
    getConn k (removeConn k' l) = getConn k l := by
  have hk'k : k' ≠ k := fun hk => h hk.symm
  induction l with
  | nil => simp [removeConn]
  | cons hd tl ih =>
    obtain ⟨a, b⟩ := hd
    by_cases ha : a = k'
    · subst ha
      simp [removeConn, getConn, hk'k]
    · by_cases hak : a = k <;> simp [removeConn, getConn, ha, hak, h, ih]

theorem getConn_eq_none_iff (k : String) (l : Connections) :
    getConn k l = none ↔ k ∉ connKeys l := by
  induction l with
  | nil => simp [getConn, connKeys]
  | cons hd tl ih =>
    obtain ⟨a, b⟩ := hd
    by_cases ha : a = k
    · subst ha
      simp [getConn, connKeys]
    · have hka : k ≠ a := fun hk => ha hk.symm
      simp [getConn, connKeys, ha, hka, ih]

theorem mem_connKeys_of_getConn_isSome (k : String) (l : Connections)
    (h : (getConn k l).isSome = true) : k ∈ connKeys l := by
  by_contra hk
  rw [← getConn_eq_none_iff] at hk
  rw [hk] at h
  simp at h

theorem removeConn_of_getConn_none (k : String) (l : Connections)
    (h : getConn k l = none) : removeConn k l = l := by
  induction l with
  | nil => simp [removeConn]
  | cons hd tl ih =>
    obtain ⟨a, b⟩ := hd
    by_cases ha : a = k
    · simp [getConn, ha] at h
    · simp only [getConn, ha, if_false] at h
      simp [removeConn, ha, ih h]

theorem getConn_removeConn_self (k : String) (l : Connections)
    (hnd : (connKeys l).Nodup) : getConn k (removeConn k l) = none := by
  induction l with
  | nil => simp [removeConn, getConn]
  | cons hd tl ih =>
    obtain ⟨a, b⟩ := hd
    simp only [connKeys, List.map_cons, List.nodup_cons] at hnd
    by_cases ha : a = k
    · subst ha
      simp only [removeConn, if_pos rfl]
      rw [getConn_eq_none_iff]
      exact hnd.1
    · simp [removeConn, ha, getConn, ih hnd.2]

theorem mem_connKeys_removeConn (a k : String) (l : Connections)
    (h : a ∈ connKeys (removeConn k l)) : a ∈ connKeys l := by
  induction l with
  | nil => simpa [removeConn] using h
  | cons hd tl ih =>
    obtain ⟨a', b'⟩ := hd
    by_cases ha : a' = k
    · subst ha
      simp only [removeConn, if_pos rfl] at h
      simp only [connKeys, List.map_cons, List.mem_cons]
      exact Or.inr h
    · simp only [removeConn, if_neg ha, connKeys, List.map_cons, List.mem_cons] at h ⊢
      rcases h with h | h
      · exact Or.inl h
      · exact Or.inr (ih h)

theorem mem_connKeys_insertConn (a k : String) (v : DeviceState) (l : Connections) :
    a ∈ connKeys (insertConn k v l) ↔ a = k ∨ a ∈ connKeys l := by
  induction l with
  | nil => simp [insertConn, connKeys]
  | cons hd tl ih =>
    obtain ⟨a', b'⟩ := hd
    by_cases ha : a' = k
    · subst ha
      simp only [connKeys] at ih ⊢
      simp [insertConn]
    · simp only [insertConn, if_neg ha, connKeys, List.map_cons, List.mem_cons] at ih ⊢
      rw [ih]
      tauto

theorem nodup_connKeys_insertConn (k : String) (v : DeviceState) (l : Connections)
    (h : (connKeys l).Nodup) : (connKeys (insertConn k v l)).Nodup := by
  induction l with
  | nil => simp [insertConn, connKeys]
  | cons hd tl ih =>
    obtain ⟨a', b'⟩ := hd
    simp only [connKeys, List.map_cons, List.nodup_cons] at h
    by_cases ha : a' = k
    · subst ha
      simp only [connKeys]
      simp [insertConn]
      exact ⟨fun x hx => h.1 (List.mem_map_of_mem Prod.fst hx), h.2⟩
    · simp only [insertConn, if_neg ha, connKeys, List.map_cons, List.nodup_cons]
      refine ⟨?_, ih h.2⟩
      intro hmem
      rcases (mem_connKeys_insertConn a' k v tl).mp hmem with h1 | h2
      · exact ha h1
      · exact h.1 h2

theorem countKey_of_not_mem (k : String) (l : Connections)
    (h : k ∉ connKeys l) : countKey k l = 0 := by
  induction l with
  | nil => simp [countKey]
  | cons hd tl ih =>
    obtain ⟨a, b⟩ := hd
    simp only [connKeys, List.map_cons, List.mem_cons, not_or] at h
    have ha : ¬ a = k := fun hk => h.1 (Eq.symm hk)
    simp [countKey, List.countP_cons, ha] at ih ⊢
    exact ih h.2

theorem countKey_insertConn_self (k : String) (v : DeviceState) (l : Connections)
    (hnd : (connKeys l).Nodup) : countKey k (insertConn k v l) = 1 := by
  induction l with
  | nil => simp [insertConn, countKey, List.countP_cons]
  | cons hd tl ih =>
    obtain ⟨a, b⟩ := hd
    simp only [connKeys, List.map_cons, List.nodup_cons] at hnd
    by_cases ha : a = k
    · subst ha
      simp only [insertConn, if_pos rfl]
      have h0 : countKey a tl = 0 := countKey_of_not_mem a tl hnd.1
      simp [countKey, List.countP_cons] at h0 ⊢
      exact h0
    · simp only [insertConn, ha, if_false]
      have := ih hnd.2
      simp [countKey, List.countP_cons, ha] at this ⊢
      exact this

/-! ## Claims -/

/-- Claim C1, counterexample: pairing device `d` does not add `d` to the
paired set while keeping previously paired identities — `set_paired(&handler,
Some(device))` replaces the whole `paired` value, so the previously paired
identity `e` is dropped; and unpairing `d` clears the whole `paired` value
(`set_paired(&handler, None)`), dropping `e` as well instead of removing
exactly `d`. -/
theorem C1_counterexample :
    (update true (init ⟨[], some ⟨"e", "E"⟩⟩) (.PairDevice ⟨"d", "D"⟩)).map
        (fun r => r.1.config.paired) = some (some ⟨"d", "D"⟩) ∧
    (update true (init ⟨[], some ⟨"e", "E"⟩⟩) (.UnPairDevice ⟨"d", "D"⟩)).map
        (fun r => r.1.config.paired) = some none ∧
    (init (⟨[], some ⟨"e", "E"⟩⟩ : ConnectConfig)).config.paired = some ⟨"e", "E"⟩ := by
  refine ⟨rfl, rfl, rfl⟩

/-- Claim C1 as amended: with the config handler available, the pair request
with `approve = true` replaces `config.paired` wholesale with exactly `d`
(any previously paired identity is discarded), and with `approve = false` it
empties `config.paired` entirely (every paired identity is removed, not only
`d`); in both cases a save of the config is issued (the last effect of the
step is the config save). -/
theorem C1_amended (s : CosmicConnect) (d : DeviceId) :
    (update true s (.PairDevice d)).map
        (fun r => (r.1.config.paired, r.2.getLast?)) =
      some (some d, some .saveConfig) ∧
    (update true s (.UnPairDevice d)).map
        (fun r => (r.1.config.paired, r.2.getLast?)) =
      some (none, some .saveConfig) := by
  constructor <;>
    · cases h : getConn d.id s.connections <;>
        simp [update, ConnectConfig.set_paired, h]

/-- Claim C4, counterexample: on a state whose sessions map contains `d` with
`pairing_state = Unpaired`, the pair request with `approve = true` leaves the
session's `pairing_state` at `Unpaired` (not `Requested`: the reducer only
sends a `Pair` action, it never writes the local `pairing_state`), and the
request with `approve = false` removes `d`'s session from the map entirely
(rather than keeping it with `pairing_state = Unpaired`). -/
theorem C4_counterexample :
    (update true
        { init ⟨[], none⟩ with
          connections := [("d", ⟨⟨"d", "D"⟩, none, none, .Unpaired⟩)] }
        (.PairDevice ⟨"d", "D"⟩)).map
        (fun r => getConn "d" r.1.connections) =
      some (some ⟨⟨"d", "D"⟩, none, none, .Unpaired⟩) ∧
    (update true
        { init ⟨[], none⟩ with
          connections := [("d", ⟨⟨"d", "D"⟩, none, none, .Unpaired⟩)] }
        (.UnPairDevice ⟨"d", "D"⟩)).map
        (fun r => getConn "d" r.1.connections) = some none := by
  refine ⟨rfl, rfl⟩

/-- Claim C4 as amended: the pair request with `approve = true` leaves the
sessions map completely unchanged (no `pairing_state` write, no insertion or
removal; the state change is delegated to the backend via the sent `Pair`
action), while the request with `approve = false` removes `d`'s session from
the sessions map. -/
theorem C4_amended (s : CosmicConnect) (d : DeviceId) :
    (update true s (.PairDevice d)).map (fun r => r.1.connections) =
      some s.connections ∧
    (update true s (.UnPairDevice d)).map (fun r => r.1.connections) =
      some (removeConn d.id s.connections) := by
  constructor <;> (cases h : getConn d.id s.connections <;> simp [update, h])

/-- Claim C5, counterexample: a device-update message for the newly seen
identity `"a"` inserts the session into the sessions map but inserts nothing
into `config.last_connections` (it stays empty) and issues no save effect,
although the identity was newly seen — the `UpdateState` arm only writes
`connections`. -/
theorem C5_counterexample :
    (update true (init ⟨[], none⟩)
        (.UpdateState ⟨⟨"a", "A"⟩, none, none, .Unpaired⟩)).map
        (fun r => (r.1.config.last_connections, r.1.connections, r.2)) =
      some ([], [("a", ⟨⟨"a", "A"⟩, none, none, .Unpaired⟩)], []) := rfl

/-- Claim C5 as amended: a device-update message upserts the session keyed by
the carried identity and does nothing else: the config (including
`last_connections`) is left unchanged and no save effect is ever issued by a
device-update. -/
theorem C5_amended (s : CosmicConnect) (st : DeviceState) :
    update true s (.UpdateState st) =
      some ({ s with connections := insertConn st.device_id.id st s.connections },
            []) := rfl

/-- Claim C6: the disconnect message for device `d` removes exactly the
session keyed by `d`'s identity — afterwards that key maps to nothing, every
other key maps to the same session as before, and the config (hence
`config.paired`) is not mutated.  The `Nodup` hypothesis is the well-formed
hash-map condition (`connections` is a `HashMap`, so its keys are unique). -/
theorem C6_disconnect_frame (s : CosmicConnect) (device : DeviceState)
    (hnd : (connKeys s.connections).Nodup) :
    (update true s (.DisconnectDevice device)).map
        (fun r => (r.1.connections, r.1.config)) =
      some (removeConn device.device_id.id s.connections, s.config) ∧
    getConn device.device_id.id (removeConn device.device_id.id s.connections) =
      none ∧
    (∀ k, k ≠ device.device_id.id →
      getConn k (removeConn device.device_id.id s.connections) =
        getConn k s.connections) := by
  refine ⟨by simp [update], getConn_removeConn_self _ _ hnd, ?_⟩
  intro k hk
  exact getConn_removeConn_ne k _ hk s.connections

/-- Claim C6, witness: on a concrete two-session state, disconnecting `"d"`
leaves the other session `"x"` untouched. -/
theorem C6_witness :
    getConn "x"
        (removeConn "d"
          [("d", ⟨⟨"d", "D"⟩, none, none, .Unpaired⟩),
           ("x", ⟨⟨"x", "X"⟩, none, none, .Paired⟩)]) =
      getConn "x"
        [("d", ⟨⟨"d", "D"⟩, none, none, .Unpaired⟩),
         ("x", ⟨⟨"x", "X"⟩, none, none, .Paired⟩)] :=
  (C6_disconnect_frame
      { init ⟨[], none⟩ with
        connections :=
          [("d", ⟨⟨"d", "D"⟩, none, none, .Unpaired⟩),
           ("x", ⟨⟨"x", "X"⟩, none, none, .Paired⟩)] }
      ⟨⟨"d", "D"⟩, none, none, .Unpaired⟩
      (by decide)).2.2 "x" (by decide)

/-- Claim C7: the code can panic.  The `PairDevice` arm calls
`ConnectConfig::config_handler().unwrap()`; when the config store is
unavailable (`config_handler()` returns `None`, modelled by
`handler_ok = false`) the reduction aborts instead of logging and
completing. -/
theorem C7_panic_on_missing_config_handler :
    update false (init ⟨[], none⟩) (.PairDevice ⟨"d", "D"⟩) = none := rfl

/-- Claim C10: for an identity `d` that is not a key of the sessions map, the
send-ping message leaves the whole state unchanged and issues no effect at
all, and the pair and unpair messages send no backend device action (the
`connections.get` lookup yields nothing to iterate): their only effect is the
config save. -/
theorem C10_unknown_device (s : CosmicConnect) (d : DeviceId) (msg : String)
    (h : getConn d.id s.connections = none) :
    update true s (.SendPing d msg) = some (s, []) ∧
    update true s (.PairDevice d) =
      some ({ s with config := s.config.set_paired (some d) }, [.saveConfig]) ∧
    update true s (.UnPairDevice d) =
      some ({ s with config := s.config.set_paired none }, [.saveConfig]) := by
  have hrm := removeConn_of_getConn_none d.id s.connections h
  refine ⟨by simp [update, h], by simp [update, h], ?_⟩
  simp [update, h, hrm]

/-- Claim C10, witness: pinging the unknown identity `"z"` on the initial
state is a complete no-op. -/
theorem C10_witness :
    update true (init ⟨[], none⟩) (.SendPing ⟨"z", "Z"⟩ "hi") =
      some (init ⟨[], none⟩, []) :=
  (C10_unknown_device (init ⟨[], none⟩) ⟨"z", "Z"⟩ "hi" rfl).1

/-- Claim C8: the popup controller stores at most one id (`popup : Option`);
a toggle in the closed state opens with the fresh id (`Id::unique()`, the
next counter value), a toggle in the open state closes, so two consecutive
toggles from the closed state return it to closed; and an external close
notification whose id differs from the tracked one changes nothing. -/
theorem C8_popup (s : CosmicConnect) :
    (s.popup = none →
      update true s .TogglePopup =
        some ({ s with popup := some s.next_popup_id,
                       next_popup_id := s.next_popup_id + 1 },
              [.openPopup s.next_popup_id])) ∧
    (∀ p, s.popup = some p →
      update true s .TogglePopup =
        some ({ s with popup := none }, [.destroyPopup p])) ∧
    (s.popup = none →
      (run true s [.TogglePopup, .TogglePopup]).map (fun s2 => s2.popup) =
        some none) ∧
    (∀ p i, s.popup = some p → i ≠ p →
      update true s (.PopupClosed i) = some (s, [])) := by
  refine ⟨?_, ?_, ?_, ?_⟩
  · intro h
    simp [update, h]
  · intro p h
    simp [update, h]
  · intro h
    simp [run, update, h]
  · intro p i h hip
    have hne : ¬ s.popup = some i := by
      rw [h]
      simp
      exact fun he => hip he.symm
    simp [update, hne]

/-- Claim C8, witness: from the initial (closed) state, two consecutive
toggles leave the popup closed. -/
theorem C8_witness :
    (run true (init ⟨[], none⟩) [.TogglePopup, .TogglePopup]).map
        (fun s2 => s2.popup) = some none :=
  (C8_popup (init ⟨[], none⟩)).2.2.1 rfl

/-- Claim C3, counterexample: after the backend-connected event followed by a
disconnect message, the backend handle is `None` while the client action
sender is still `Some` — the `DisconnectDevice` arm clears only
`self.kdeconnect` and leaves `self.kdeconnect_client_action_sender` set. -/
theorem C3_counterexample :
    (run true (init ⟨[], none⟩)
        [.KdeConnectConnected,
         .DisconnectDevice ⟨⟨"d", "D"⟩, none, none, .Unpaired⟩]).map
        (fun s' => (s'.kdeconnect, s'.kdeconnect_client_action_sender)) =
      some (false, true) := rfl

/-- Per-step preservation: every reducer step preserves "if the backend
handle is set then the action sender is set" (the connected event sets both;
a disconnect clears only the backend handle). -/
theorem update_handles (s : CosmicConnect) (m : Message) (s1 : CosmicConnect)
    (effs : List Effect) (hu : update true s m = some (s1, effs))
    (h : s.kdeconnect = true → s.kdeconnect_client_action_sender = true) :
    s1.kdeconnect = true → s1.kdeconnect_client_action_sender = true := by
  cases m with
  | TogglePopup =>
    cases hp : s.popup <;>
      · simp [update, hp] at hu
        obtain ⟨rfl, rfl⟩ := hu
        exact h
  | PopupClosed i =>
    by_cases hc : s.popup = some i <;>
      · simp [update, hc] at hu
        obtain ⟨rfl, rfl⟩ := hu
        exact h
  | UpdateConfig c =>
    simp [update] at hu
    obtain ⟨rfl, rfl⟩ := hu
    exact h
  | KdeConnectConnected =>
    simp [update] at hu
    obtain ⟨rfl, rfl⟩ := hu
    intro _
    rfl
  | DeviceUpdate r =>
    cases r <;>
      · simp [update] at hu
        obtain ⟨rfl, rfl⟩ := hu
        exact h
  | DisconnectDevice dv =>
    simp [update] at hu
    obtain ⟨rfl, rfl⟩ := hu
    intro hk
    exact absurd hk (by simp)
  | Broadcast =>
    simp [update] at hu
    obtain ⟨rfl, rfl⟩ := hu
    exact h
  | UpdateState st =>
    simp [update] at hu
    obtain ⟨rfl, rfl⟩ := hu
    exact h
  | PairDevice dv =>
    simp [update] at hu
    obtain ⟨rfl, rfl⟩ := hu
    exact h
  | UnPairDevice dv =>
    simp [update] at hu
    obtain ⟨rfl, rfl⟩ := hu
    exact h
  | SendPing i msg =>
    simp [update] at hu
    obtain ⟨rfl, rfl⟩ := hu
    exact h

/-- The handle/sender implication is preserved along any message sequence. -/
theorem run_handles (ms : List Message) :
    ∀ s : CosmicConnect,
      (s.kdeconnect = true → s.kdeconnect_client_action_sender = true) →
      ∀ s', run true s ms = some s' →
        s'.kdeconnect = true → s'.kdeconnect_client_action_sender = true := by
  induction ms with
  | nil =>
    intro s h s' hr
    simp [run] at hr
    exact hr ▸ h
  | cons m tl ih =>
    intro s h s' hr
    cases hu : update true s m with
    | none => simp [run, hu] at hr
    | some r =>
      obtain ⟨s1, effs⟩ := r
      simp only [run, hu] at hr
      exact ih s1 (update_handles s m s1 effs hu h) s' hr

/-- Claim C3 as amended: in every state reachable from the initial state, if
the backend handle is set then the client action sender is set.  The converse
direction of the claim fails (see the counterexample): a disconnect clears
only the backend handle, so the sender may remain set alone. -/
theorem C3_amended (c : ConnectConfig) (ms : List Message) (s' : CosmicConnect)
    (hr : run true (init c) ms = some s') (hk : s'.kdeconnect = true) :
    s'.kdeconnect_client_action_sender = true :=
  run_handles ms (init c) (fun hfalse => by simp [init] at hfalse) s' hr hk

/-- Claim C3, witness: after the backend-connected event the action sender is
set. -/
theorem C3_witness :
    ({ init ⟨[], none⟩ with
       kdeconnect := true
       kdeconnect_client_action_sender := true } :
      CosmicConnect).kdeconnect_client_action_sender = true :=
  C3_amended ⟨[], none⟩ [.KdeConnectConnected]
    { init ⟨[], none⟩ with
      kdeconnect := true
      kdeconnect_client_action_sender := true } rfl rfl

/-- Claim C9, counterexample: after two device-update messages for the same
identity `"a"` from the initial state, the sessions map holds exactly the
later snapshot, but `config.last_connections` contains zero entries for
`"a"`, not exactly one — the reducer never writes `last_connections`. -/
theorem C9_counterexample :
    (run true (init ⟨[], none⟩)
        [.UpdateState ⟨⟨"a", "A"⟩, none, none, .Unpaired⟩,
         .UpdateState ⟨⟨"a", "A"⟩, none, some ⟨50, true⟩, .Paired⟩]).map
        (fun s' => (s'.connections, s'.config.last_connections)) =
      some ([("a", ⟨⟨"a", "A"⟩, none, some ⟨50, true⟩, .Paired⟩)], []) := rfl

/-- Claim C9 as amended: applying two device-update messages carrying
snapshots `v1` then `v2` of the same identity leaves the sessions map with
exactly one entry for that identity, holding `v2`'s fields wholesale (the
later snapshot wins), and leaves the whole config — `last_connections`
included — unchanged. -/
theorem C9_amended (s : CosmicConnect) (v1 v2 : DeviceState)
    (hid : v1.device_id.id = v2.device_id.id)
    (hnd : (connKeys s.connections).Nodup) :
    (run true s [.UpdateState v1, .UpdateState v2]).map
        (fun s' => (countKey v2.device_id.id s'.connections,
                    getConn v2.device_id.id s'.connections, s'.config)) =
      some (1, some v2, s.config) := by
  have h1 : (connKeys (insertConn v1.device_id.id v1 s.connections)).Nodup :=
    nodup_connKeys_insertConn _ _ _ hnd
  simp [run, update, countKey_insertConn_self _ v2 _ h1, getConn_insertConn_self]

/-- Claim C9, witness: the churn scenario at the initial state. -/
theorem C9_witness :
    (run true (init ⟨[], none⟩)
        [.UpdateState ⟨⟨"a", "A"⟩, none, none, .Unpaired⟩,
         .UpdateState ⟨⟨"a", "A2"⟩, none, some ⟨50, true⟩, .Paired⟩]).map
        (fun s' => (countKey "a" s'.connections,
                    getConn "a" s'.connections, s'.config)) =
      some (1, some ⟨⟨"a", "A2"⟩, none, some ⟨50, true⟩, .Paired⟩,
            (⟨[], none⟩ : ConnectConfig)) :=
  C9_amended (init ⟨[], none⟩) ⟨⟨"a", "A"⟩, none, none, .Unpaired⟩
    ⟨⟨"a", "A2"⟩, none, some ⟨50, true⟩, .Paired⟩ rfl (by decide)

theorem updateStateIds_cons (m : Message) (tl : List Message) :
    updateStateIds (m :: tl) = updateStateIds [m] ++ updateStateIds tl := by
  cases m <;> simp [updateStateIds]

/-- Per-step origin tracking: under the step's side condition (`okMsg`),
every identity among the session keys or in `config.paired` after a step was
already a session key or paired before, or was carried by the step's own
device-update message. -/
theorem update_origin (s : CosmicConnect) (m : Message) (s1 : CosmicConnect)
    (effs : List Effect) (hu : update true s m = some (s1, effs))
    (hok : okMsg s m = true) (x : String)
    (hx : x ∈ connKeys s1.connections ∨ pairedId s1 = some x) :
    x ∈ connKeys s.connections ∨ pairedId s = some x ∨
      x ∈ updateStateIds [m] := by
  cases m with
  | TogglePopup =>
    cases hp : s.popup <;>
      · simp [update, hp] at hu
        obtain ⟨rfl, rfl⟩ := hu
        rcases hx with h | h
        · exact Or.inl h
        · exact Or.inr (Or.inl h)
  | PopupClosed i =>
    by_cases hc : s.popup = some i <;>
      · simp [update, hc] at hu
        obtain ⟨rfl, rfl⟩ := hu
        rcases hx with h | h
        · exact Or.inl h
        · exact Or.inr (Or.inl h)
  | UpdateConfig c => simp [okMsg] at hok
  | KdeConnectConnected =>
    simp [update] at hu
    obtain ⟨rfl, rfl⟩ := hu
    rcases hx with h | h
    · exact Or.inl h
    · exact Or.inr (Or.inl h)
  | DeviceUpdate r =>
    cases r <;>
      · simp [update] at hu
        obtain ⟨rfl, rfl⟩ := hu
        rcases hx with h | h
        · exact Or.inl h
        · exact Or.inr (Or.inl h)
  | DisconnectDevice dv =>
    simp [update] at hu
    obtain ⟨rfl, rfl⟩ := hu
    rcases hx with h | h
    · exact Or.inl (mem_connKeys_removeConn x _ _ h)
    · exact Or.inr (Or.inl h)
  | Broadcast =>
    simp [update] at hu
    obtain ⟨rfl, rfl⟩ := hu
    rcases hx with h | h
    · exact Or.inl h
    · exact Or.inr (Or.inl h)
  | UpdateState st =>
    simp [update] at hu
    obtain ⟨rfl, rfl⟩ := hu
    rcases hx with h | h
    · rcases (mem_connKeys_insertConn x st.device_id.id st s.connections).mp h with
        h1 | h2
      · exact Or.inr (Or.inr (by simp [updateStateIds, h1]))
      · exact Or.inl h2
    · exact Or.inr (Or.inl h)
  | PairDevice dv =>
    simp only [okMsg] at hok
    simp [update] at hu
    obtain ⟨rfl, rfl⟩ := hu
    rcases hx with h | h
    · exact Or.inl h
    · have hxd : x = dv.id := by
        simp [pairedId, ConnectConfig.set_paired] at h
        exact h.symm
      subst hxd
      exact Or.inl (mem_connKeys_of_getConn_isSome _ _ hok)
  | UnPairDevice dv =>
    simp [update] at hu
    obtain ⟨rfl, rfl⟩ := hu
    rcases hx with h | h
    · exact Or.inl (mem_connKeys_removeConn x _ _ h)
    · simp [pairedId, ConnectConfig.set_paired] at h
  | SendPing i msg =>
    simp [update] at hu
    obtain ⟨rfl, rfl⟩ := hu
    rcases hx with h | h
    · exact Or.inl h
    · exact Or.inr (Or.inl h)

/-- Origin tracking along a whole sequence. -/
theorem run_origin (ms : List Message) :
    ∀ s : CosmicConnect, goodRun s ms = true →
      ∀ s', run true s ms = some s' →
        ∀ x, (x ∈ connKeys s'.connections ∨ pairedId s' = some x) →
          (x ∈ connKeys s.connections ∨ pairedId s = some x ∨
            x ∈ updateStateIds ms) := by
  induction ms with
  | nil =>
    intro s _ s' hr x hx
    simp [run] at hr
    subst hr
    rcases hx with h | h
    · exact Or.inl h
    · exact Or.inr (Or.inl h)
  | cons m tl ih =>
    intro s hg s' hr x hx
    cases hu : update true s m with
    | none => simp [run, hu] at hr
    | some r =>
      obtain ⟨s1, effs⟩ := r
      rw [goodRun, hu, Bool.and_eq_true] at hg
      simp only [run, hu] at hr
      rcases ih s1 hg.2 s' hr x hx with h | h | h
      · rcases update_origin s m s1 effs hu hg.1 x (Or.inl h) with h' | h' | h'
        · exact Or.inl h'
        · exact Or.inr (Or.inl h')
        · refine Or.inr (Or.inr ?_)
          rw [updateStateIds_cons, List.mem_append]
          exact Or.inl h'
      · rcases update_origin s m s1 effs hu hg.1 x (Or.inr h) with h' | h' | h'
        · exact Or.inl h'
        · exact Or.inr (Or.inl h')
        · refine Or.inr (Or.inr ?_)
          rw [updateStateIds_cons, List.mem_append]
          exact Or.inl h'
      · refine Or.inr (Or.inr ?_)
        rw [updateStateIds_cons, List.mem_append]
        exact Or.inr h

/-- Claim C2, counterexample: from the initial state with `config.paired`
empty, the single-message sequence `[PairDevice "d"]` puts `"d"` into
`config.paired` although no device-update message for `"d"` (or for
anything) occurs in the sequence — the `PairDevice` arm writes the config
unconditionally, whether or not the device has ever been seen. -/
theorem C2_counterexample :
    (run true (init ⟨[], none⟩) [.PairDevice ⟨"d", "D"⟩]).map
        (fun s' => s'.config.paired) = some (some ⟨"d", "D"⟩) ∧
    updateStateIds [Message.PairDevice ⟨"d", "D"⟩] = [] :=
  ⟨rfl, rfl⟩

/-- Claim C2 as amended: restricted to sequences in which every pair request
names an identity currently in the sessions map and no config-reload message
occurs (the `goodRun` side condition), `config.paired` never contains an
identity that has never appeared in a device-update message of the
sequence. -/
theorem C2_amended (c : ConnectConfig) (ms : List Message) (s' : CosmicConnect)
    (d : DeviceId) (hp : c.paired = none) (hg : goodRun (init c) ms = true)
    (hr : run true (init c) ms = some s')
    (hd : s'.config.paired = some d) :
    d.id ∈ updateStateIds ms := by
  rcases run_origin ms (init c) hg s' hr d.id
      (Or.inr (by simp [pairedId, hd])) with h | h | h
  · simp [init, connKeys] at h
  · simp [init, pairedId, hp] at h
  · exact h

/-- Claim C2, witness: see the device, then pair it; the paired identity did
appear in a device-update message. -/
theorem C2_witness :
    (⟨"d", "D"⟩ : DeviceId).id ∈
      updateStateIds
        [Message.UpdateState ⟨⟨"d", "D"⟩, none, none, .Unpaired⟩,
         Message.PairDevice ⟨"d", "D"⟩] :=
  C2_amended ⟨[], none⟩
    [.UpdateState ⟨⟨"d", "D"⟩, none, none, .Unpaired⟩,
     .PairDevice ⟨"d", "D"⟩]
    { init ⟨[], none⟩ with
      config := ⟨[], some ⟨"d", "D"⟩⟩
      connections := [("d", ⟨⟨"d", "D"⟩, none, none, .Unpaired⟩)] }
    ⟨"d", "D"⟩ rfl (by decide) (by decide) rfl

end Applet
